import Mathlib

/-!
Verification of the raw-data processor's core pipeline against its
natural-language specification.

The development shallowly embeds the Python source:

* `src/src/services/batch_processor.py` (Batch Transformer): pure functions
  over a model `PyVal` of Python/JSON values; the Python runtime primitives
  `datetime.fromisoformat`, `datetime.strptime` and `json.loads` are
  abstracted as a parameter structure `PyPrims`, so every theorem quantifies
  over the primitive parsers and concrete instances pick a partial parser
  that agrees with the real one on the strings actually used.
* `src/src/services/redis_consumer.py` (Stream Consumer): explicit state
  passing over a `RedisConsumer` record; the broker's reply is a parameter.
* `src/src/services/writer_service.py` (Orchestrator): a step interpreter
  over an environment `Env` that fixes the outcome of each collaborator
  call, producing a result together with a trace of performed actions.
* `src/src/repositories/*.py` (Bulk Loader): functions parametric in the
  connection's bulk-copy behaviour, returning the result and the list of
  store operations performed.

Fallible Python code is modelled with `Option`/`Except`; an `Except.error`
is a raised exception.  Per-record `try/except` blocks in the source become
`Option`-valued record processors (an absorbed exception is `none`).
-/

/-- Model of a Python/JSON value as it appears in stream payloads. -/
inductive PyVal : Type where
  | pynone : PyVal
  | pybool (b : Bool) : PyVal
  | pyint (n : Int) : PyVal
  | pystr (s : String) : PyVal
  | pydatetime (t : Int) : PyVal
  | pylist (xs : List PyVal) : PyVal
  | pydict (kvs : List (String × PyVal)) : PyVal

/-- Python truthiness (`bool(v)`): None, False, 0, empty string/list/dict are falsy. -/
def pyTruthy : PyVal → Bool
  | .pynone => false
  | .pybool b => b
  | .pyint n => n != 0
  | .pystr s => !s.data.isEmpty
  | .pydatetime _ => true
  | .pylist xs => !xs.isEmpty
  | .pydict kvs => !kvs.isEmpty

/-- Accumulates a decimal digit run; any non-digit character fails, the
model of `int(...)` on a trimmed string body. -/
def natOfDigitsAux : List Char → Nat → Option Nat
  | [], acc => some acc
  | c :: cs, acc =>
    if c.isDigit then natOfDigitsAux cs (acc * 10 + (c.toNat - 48)) else none

/-- Model of Python `int(s)` on a string: an optional sign followed by a
non-empty run of decimal digits; anything else raises ValueError (`none`).
(The leading/trailing-whitespace and underscore-separator tolerance of the
real routine is outside the modelled domain.) -/
def py_int_of_string (s : String) : Option Int :=
  match s.data with
  | [] => none
  | '-' :: [] => none
  | '-' :: cs => (natOfDigitsAux cs 0).map (fun n => -(n : Int))
  | '+' :: [] => none
  | '+' :: cs => (natOfDigitsAux cs 0).map (fun n => (n : Int))
  | cs => (natOfDigitsAux cs 0).map (fun n => (n : Int))

/-- Model of Python `s.replace(old, new)` for a one-character pattern,
which is the only shape the source uses (the trailing-Z normalisation in
`_parse_datetime`): every occurrence of the character is expanded. -/
def py_replace_char (s : String) (old : Char) (new : String) : String :=
  ⟨(s.data.map (fun c => if c = old then new.data else [c])).flatten⟩

/-- First-match association lookup, the model of a Python dict access. -/
def assocLookup : List (String × PyVal) → String → Option PyVal
  | [], _ => none
  | (k', v) :: rest, k => if k' = k then some v else assocLookup rest k

/-- Model of `d.get(k)`: `some v` when the key is present, `none` otherwise
(non-dict receivers never hold keys; an attribute error on them is handled
at the call sites that can reach it). -/
def dictGet : PyVal → String → Option PyVal
  | .pydict kvs, k => assocLookup kvs k
  | _, _ => none

/-- Model of `data.get(k1) or data.get(k2)`: Python `or` keeps the first
operand when it is truthy (an absent key reads as None). -/
def pyOrGet (data : PyVal) (k1 k2 : String) : PyVal :=
  let a := (dictGet data k1).getD .pynone
  if pyTruthy a then a else (dictGet data k2).getD .pynone

/-- Exceptions distinguished by `_parse_region_ids`, which catches
ValueError but lets TypeError propagate. -/
inductive PyExc : Type where
  | valueError : PyExc
  | typeError : PyExc
deriving DecidableEq

/-- Python `int(x)` coercion: ints pass through, bools become 0/1, decimal
strings parse (ValueError otherwise), anything else is a TypeError. -/
def int_coerce : PyVal → Except PyExc Int
  | .pyint n => .ok n
  | .pybool b => .ok (if b then 1 else 0)
  | .pystr s =>
    match py_int_of_string s with
    | some n => .ok n
    | none => .error .valueError
  | _ => .error .typeError

/-- The abstracted Python runtime primitives used by the Batch Transformer.
Each field is a partial function standing for the real library routine;
concrete instances used in witnesses agree with the real routine on every
string the run actually feeds it. -/
structure PyPrims where
  fromisoformat : String → Option Int
  strptime : String → Option Int
  json_loads : String → Option PyVal

namespace BatchProcessorM

/-- Embeds `BatchProcessor._safe_int`: None and the empty string give None,
then `int(value)` with ValueError/TypeError absorbed to None. -/
def safe_int : PyVal → Option Int
  | .pynone => none
  | .pystr "" => none
  | v =>
    match int_coerce v with
    | .ok n => some n
    | .error _ => none

/-- Embeds `BatchProcessor._safe_bool`: bools pass through, strings compare
case-insensitively against true/1/yes, anything else takes its truthiness. -/
def safe_bool : PyVal → Bool
  | .pybool b => b
  | .pystr s => s.toLower = "true" || s.toLower = "1" || s.toLower = "yes"
  | v => pyTruthy v

/-- Embeds `BatchProcessor._parse_datetime`: datetimes pass through, falsy
values give None, strings go through `fromisoformat` (after replacing a
trailing Z marker) and then the fixed `strptime` pattern.  A truthy
non-string value raises a TypeError inside `strptime` that the per-record
handler in `process_batch` absorbs; either way no timestamp is produced,
which this total model renders as `none`. -/
def parse_datetime (P : PyPrims) : PyVal → Option Int
  | .pydatetime t => some t
  | .pystr s =>
    if s.data.isEmpty then none
    else
      match P.fromisoformat (py_replace_char s 'Z' "+00:00") with
      | some t => some t
      | none => P.strptime s
  | _ => none

/-- Python `[int(x) for x in xs]`: left-to-right coercion, first exception
propagates. -/
def coerce_all : List PyVal → Except PyExc (List Int)
  | [] => .ok []
  | x :: xs => do
    let n ← int_coerce x
    let ns ← coerce_all xs
    return n :: ns

/-- Embeds `BatchProcessor._parse_region_ids`.  None and the empty string
give None; a literal list is coerced elementwise with exceptions
propagating; a string is JSON-decoded (decode failure gives None) and, when
it decodes to a list, coerced elementwise with ValueError caught (giving
None) but TypeError propagating; any other shape gives None. -/
def parse_region_ids (P : PyPrims) : PyVal → Except PyExc (Option (List Int))
  | .pynone => .ok none
  | .pystr "" => .ok none
  | .pylist xs => (coerce_all xs).map some
  | .pystr s =>
    match P.json_loads s with
    | none => .ok none
    | some (.pylist xs) =>
      match coerce_all xs with
      | .ok ns => .ok (some ns)
      | .error .valueError => .ok none
      | .error .typeError => .error .typeError
    | some _ => .ok none
  | _ => .ok none

/-- One entry of the JSONB detection object built by
`_build_detection_object`.  A key set to Python None is still present in
the dict, hence the nested `Option` on the fields assigned via `_safe_int`
without a None guard. -/
structure DetectionObj where
  className : Option (Option Int)
  confidence : Option Int
  photoUrl : Option String
  coordinateX : Option (Option Int)
  coordinateY : Option (Option Int)
  regionID : Option (List Int)
deriving DecidableEq

/-- Python `str(x)` as used on the photo-url field.  The rendering of
container values is abridged to a fixed tag: no property proved here
depends on it, only on the field's presence. -/
def py_str : PyVal → String
  | .pystr s => s
  | .pyint n => toString n
  | .pybool b => if b then "True" else "False"
  | .pynone => "None"
  | .pydatetime t => toString t
  | .pylist _ => "[...]"
  | .pydict _ => "dict"

/-- The inner loop of `_build_detection_object`'s field mapping: the first
source-field synonym that is present with a non-None value wins; a present
key holding None falls through to the next synonym. -/
def lookup_first (data : PyVal) : List String → Option PyVal
  | [] => none
  | k :: ks =>
    match dictGet data k with
    | some .pynone => lookup_first data ks
    | some v => some v
    | none => lookup_first data ks

/-- Embeds `BatchProcessor._build_detection_object`: map each target field
through its synonym list, guard confidence to [0,100] (out of range leaves
the key unset), guard regionID against a None parse, then require
className, confidence, photoUrl, coordinateX and coordinateY to be present.
A region-ids coercion exception is absorbed by the method's blanket handler
(result None); a non-dict argument likewise produces no detection (its
field probes either miss or raise into the blanket handler). -/
def build_detection_object (P : PyPrims) (data : PyVal) : Option DetectionObj :=
  match data with
  | .pydict _ =>
    let cn := (lookup_first data ["className", "class_name", "class_id"]).map safe_int
    let conf :=
      match lookup_first data ["confidence"] with
      | none => none
      | some v =>
        match safe_int v with
        | some c => if 0 ≤ c ∧ c ≤ 100 then some c else none
        | none => none
    let purl := (lookup_first data ["photoUrl", "photo_url"]).map py_str
    let cx := (lookup_first data ["coordinateX", "coordinate_x", "coord_x"]).map safe_int
    let cy := (lookup_first data ["coordinateY", "coordinate_y", "coord_y"]).map safe_int
    let regR :=
      match lookup_first data ["regionID", "region_id", "region_ids"] with
      | none => Except.ok none
      | some v => parse_region_ids P v
    match regR with
    | .error _ => none
    | .ok reg =>
      if cn.isSome && conf.isSome && purl.isSome && cx.isSome && cy.isSome then
        some ⟨cn, conf, purl, cx, cy, reg⟩
      else
        none
  | _ => none

/-- The JSONB event payload assembled by `process_batch`: the detection
array plus the optional metadata keys that are set only when non-None. -/
structure EventData where
  detectedObjects : List DetectionObj
  frame_number : Option Int
  processing_time_ms : Option Int
  stream_lag_ms : Option Int
deriving DecidableEq

/-- Embeds the SQLAlchemy row model
`database.models.camera_events_raw.CameraEventRaw` as constructed by the
Batch Transformer.  Its constructor performs no validation. -/
structure CameraEventRaw where
  camera_id : Int
  event_time : Int
  event_data : EventData
deriving DecidableEq

/-- The `data` field of one stream message, `message.get("data", {})`. -/
def msgData (message : PyVal) : PyVal :=
  (dictGet message "data").getD (.pydict [])

/-- Camera-id extraction of `process_batch`:
`self._safe_int(data.get("cameraID") or data.get("camera_id"))`. -/
def extract_camera_id (data : PyVal) : Option Int :=
  safe_int (pyOrGet data "cameraID" "camera_id")

/-- Event-time extraction of `process_batch`:
`self._parse_datetime(data.get("eventDate") or data.get("event_time"))`. -/
def extract_event_time (P : PyPrims) (data : PyVal) : Option Int :=
  parse_datetime P (pyOrGet data "eventDate" "event_time")

/-- The detections-decoding step of `process_batch`: a string payload is
JSON-decoded, a decode failure becoming the empty list. -/
def decode_detections (P : PyPrims) (data : PyVal) : PyVal :=
  match (dictGet data "detectedObjects").getD .pynone with
  | .pystr s =>
    match P.json_loads s with
    | some v => v
    | none => .pylist []
  | v => v

/-- The detection-collection step of `process_batch`: a decoded list is
filtered through `_build_detection_object`; otherwise the legacy
single-detection path applies when `has_detection` is truthy. -/
def collect_detections (P : PyPrims) (data : PyVal) : List DetectionObj :=
  match decode_detections P data with
  | .pylist xs => xs.filterMap (build_detection_object P)
  | _ =>
    if safe_bool ((dictGet data "has_detection").getD (.pybool false)) then
      (build_detection_object P data).toList
    else
      []

/-- One optional metadata field: `_safe_int(data.get(k))`, kept only when
non-None. -/
def optional_meta (data : PyVal) (k : String) : Option Int :=
  safe_int ((dictGet data k).getD .pynone)

/-- The per-message body of `BatchProcessor.process_batch`.  `none` stands
for a skipped record: an empty data map, a missing/unparsable camera id or
event time (the `not camera_id` guard also drops camera id 0), or an
exception absorbed by the per-message handler (a non-dict data value). -/
def process_message (P : PyPrims) (message : PyVal) : Option CameraEventRaw :=
  let data := msgData message
  if pyTruthy data then
    match data with
    | .pydict _ =>
      match extract_camera_id data, extract_event_time P data with
      | some cid, some t =>
        if cid = 0 then none
        else
          some ⟨cid, t,
            ⟨collect_detections P data,
             optional_meta data "frame_number",
             optional_meta data "processing_time_ms",
             optional_meta data "stream_lag_ms"⟩⟩
      | _, _ => none
    | _ => none
  else
    none

/-- Embeds `BatchProcessor.process_batch`: each message is processed
independently, skipped messages contribute nothing, and the method never
raises (every per-record exception is absorbed). -/
def process_batch (P : PyPrims) (raw_messages : List PyVal) : List CameraEventRaw :=
  raw_messages.filterMap (process_message P)

end BatchProcessorM

/-- The `BatchProcessor` instance itself: the source class declares no
instance attribute, so the object carries no state. -/
inductive BatchProcessor : Type where
  | mk : BatchProcessor

/-- Method view of `process_batch` on a processor instance; the body reads
only its arguments. -/
def BatchProcessor.run (_self : BatchProcessor) (P : PyPrims)
    (raw_messages : List PyVal) : List BatchProcessorM.CameraEventRaw :=
  BatchProcessorM.process_batch P raw_messages

/-!  Stream Consumer (`src/src/services/redis_consumer.py`). -/

/-- The error kinds of the spec's taxonomy that this component can raise:
the `RuntimeError` guarding uninitialized use maps to `notInitialized`, a
`redis.RedisError` from the broker maps to `brokerUnavailable`. -/
inductive ErrorKind : Type where
  | notInitialized : ErrorKind
  | brokerUnavailable : ErrorKind
deriving DecidableEq

/-- The consumer's own state: whether `self._client` has been set by a
successful initialization, and the locally tracked pending message ids. -/
structure RedisConsumer where
  clientReady : Bool
  pending_message_ids : List String
deriving DecidableEq

/-- One parsed stream message as returned by `read_stream`. -/
structure StreamMsg where
  id : String
  stream : String
  data : List (String × PyVal)

/-- The broker's reply to one XREADGROUP call, abstracted: either a raised
broker error or, per stream, the list of (message id, field map) pairs. -/
def ReadReply : Type :=
  Except Unit (List (String × List (String × List (String × PyVal))))

/-- Embeds `RedisConsumer.read_stream`: an uninitialized consumer raises
(NotInitialized), a broker error is re-raised (BrokerUnavailable), an
empty reply returns no messages, and otherwise every returned id is
appended to the local pending list before the messages are returned.  The
second component is the consumer state after the call. -/
def RedisConsumer.read_stream (c : RedisConsumer) (reply : ReadReply) :
    Except ErrorKind (List StreamMsg) × RedisConsumer :=
  if c.clientReady = false then
    (.error .notInitialized, c)
  else
    match reply with
    | .error _ => (.error .brokerUnavailable, c)
    | .ok streams =>
      if streams.isEmpty then
        (.ok [], c)
      else
        let msgs := (streams.map
          (fun p => p.2.map (fun m => StreamMsg.mk m.1 p.1 m.2))).flatten
        let newIds := (streams.map (fun p => p.2.map (fun m => m.1))).flatten
        (.ok msgs, ⟨c.clientReady, c.pending_message_ids ++ newIds⟩)

/-- Embeds `RedisConsumer.acknowledge`: an uninitialized consumer raises
(NotInitialized); an empty id list returns 0 before the broker is ever
consulted (the reply parameter is unused on that path); otherwise a broker
error is re-raised and a broker count is returned as-is, with exactly the
given ids removed from the local pending list. -/
def RedisConsumer.acknowledge (c : RedisConsumer) (reply : Except Unit Nat)
    (message_ids : List String) : Except ErrorKind Nat × RedisConsumer :=
  if c.clientReady = false then
    (.error .notInitialized, c)
  else if message_ids.isEmpty then
    (.ok 0, c)
  else
    match reply with
    | .error _ => (.error .brokerUnavailable, c)
    | .ok ack_count =>
      (.ok ack_count,
       ⟨c.clientReady,
        c.pending_message_ids.filter (fun m => !(message_ids.contains m))⟩)

/-!  Bulk Loader (`src/src/repositories/`). -/

/-- One store operation performed by a repository: a bulk-copy to a table
with the given number of rows. -/
inductive StoreOp : Type where
  | copyToTable (table : String) (rows : Nat) : StoreOp
deriving DecidableEq

/-- The count parsing of `CameraEventsRawRepository.bulk_insert`: a string
of shape COPY-space-n yields n via the second whitespace-separated token,
anything else goes straight through `int(...)`; a parse failure is the
exception path. -/
def parseCopyResult (s : String) : Option Int :=
  if s.startsWith "COPY " then
    (((s.split Char.isWhitespace).filter (fun t => !t.isEmpty)).get? 1).bind
      String.toInt?
  else
    s.toInt?

/-- Embeds `CameraEventsRawRepository.bulk_insert`.  `dumps` abstracts
`json.dumps` on the event payload and `copyFn` the connection's
`copy_records_to_table`; an empty event list returns 0 with no store
operation performed. -/
def CameraEventsRawRepository.bulk_insert
    (dumps : BatchProcessorM.EventData → String)
    (copyFn : List (Int × Int × String) → Except Unit String)
    (events : List BatchProcessorM.CameraEventRaw) :
    Except Unit Int × List StoreOp :=
  if events.isEmpty then
    (.ok 0, [])
  else
    let records := events.map (fun e => (e.camera_id, e.event_time, dumps e.event_data))
    let op := StoreOp.copyToTable "camera_events_raw" records.length
    match copyFn records with
    | .error _ => (.error (), [op])
    | .ok copy_result =>
      match parseCopyResult copy_result with
      | some n => (.ok n, [op])
      | none => (.error (), [op])

/-- Embeds the Pydantic row model `src.models.camera_event.CameraEventRaw`
as the record shape `EventRepository.bulk_insert` serializes. -/
structure SrcCameraEventRaw where
  camera_id : Int
  event_time : Int
  frame_number : Option Int
  has_detection : Bool
  detection_count : Int
  processing_time_ms : Option Int
  stream_lag_ms : Option Int

/-- Embeds `EventRepository.bulk_insert`: an empty list returns 0 with no
store operation; otherwise one bulk-copy carries every row and its
reported count is returned. -/
def EventRepository.bulk_insert
    (copyFn : List (Int × Int × Option Int × Bool × Int × Option Int × Option Int) →
      Except Unit Int)
    (events : List SrcCameraEventRaw) : Except Unit Int × List StoreOp :=
  if events.isEmpty then
    (.ok 0, [])
  else
    let records := events.map (fun e =>
      (e.camera_id, e.event_time, e.frame_number, e.has_detection,
       e.detection_count, e.processing_time_ms, e.stream_lag_ms))
    let op := StoreOp.copyToTable "camera_events_raw" records.length
    match copyFn records with
    | .error _ => (.error (), [op])
    | .ok n => (.ok n, [op])

/-- Embeds the Pydantic row model `src.models.detection.CameraDetectionRaw`
as the record shape `DetectionRepository.bulk_insert` serializes. -/
structure SrcCameraDetectionRaw where
  event_time : Int
  camera_id : Int
  class_id : Int
  confidence : Int
  photo_url : Option String
  coord_x : Option Int
  coord_y : Option Int
  region_ids : Option (List Int)
  bbox_width : Option Int
  bbox_height : Option Int
  object_id : Option String
  track_id : Option Int

/-- Embeds `DetectionRepository.bulk_insert`: an empty list returns 0 with
no store operation; otherwise one bulk-copy carries every row and its
reported count is returned. -/
def DetectionRepository.bulk_insert
    (copyFn : List SrcCameraDetectionRaw → Except Unit Int)
    (detections : List SrcCameraDetectionRaw) : Except Unit Int × List StoreOp :=
  if detections.isEmpty then
    (.ok 0, [])
  else
    let op := StoreOp.copyToTable "camera_detections_raw" detections.length
    match copyFn detections with
    | .error _ => (.error (), [op])
    | .ok n => (.ok n, [op])

/-!  Orchestrator (`src/src/services/writer_service.py`).

The orchestrator's collaborators are abstracted into an environment fixing
the outcome of each call: the batch the consumer read call yields, the
outcome of the processing step (its tuple unpacking included, which is why
it is fallible as a whole), the two repository insert behaviours, and the
acknowledgment behaviour.  Running a batch produces the result together
with the trace of performed actions, so temporal claims become statements
about the trace. -/

/-- One raw message as the orchestrator sees it: it only ever projects the
id out of it. -/
structure RawMsg where
  id : String
  payload : PyVal

/-- An observable action of one orchestrator batch attempt. -/
inductive WAction (ε δ : Type) : Type where
  | readCall : WAction ε δ
  | processCall : WAction ε δ
  | insertEvents (evs : List ε) : WAction ε δ
  | insertDetections (dts : List δ) : WAction ε δ
  | ackCall (ids : List String) : WAction ε δ
  | backoff (seconds : Nat) : WAction ε δ

/-- The fixed outcomes of the collaborator calls a batch attempt makes. -/
structure Env (ε δ : Type) where
  rawMessages : List RawMsg
  processResult : Except Unit (List ε × List δ)
  eventsInsert : List ε → Except Unit Nat
  detectionsInsert : List δ → Except Unit Nat
  ackResult : List String → Except Unit Nat

/-- The metrics dict `_process_single_batch` returns; the empty-read path
carries no ack count (`duration_ms`, pure wall-clock, is not modelled). -/
structure Metrics where
  events_count : Nat
  detections_count : Nat
  messages_count : Nat
  ack_count : Option Nat
deriving DecidableEq

/-- The `if events:` guard around the event bulk insert: an empty list
skips the call (count 0, no action). -/
def runEventsInsert {ε δ : Type} (env : Env ε δ) (events : List ε) :
    Except Unit Nat × List (WAction ε δ) :=
  if events.isEmpty then (.ok 0, [])
  else (env.eventsInsert events, [.insertEvents events])

/-- The `if detections:` guard around the detection bulk insert. -/
def runDetectionsInsert {ε δ : Type} (env : Env ε δ) (detections : List δ) :
    Except Unit Nat × List (WAction ε δ) :=
  if detections.isEmpty then (.ok 0, [])
  else (env.detectionsInsert detections, [.insertDetections detections])

/-- Embeds `WriterService._process_single_batch`: read, short-circuit on an
empty batch, process, insert events then detections, and only then
acknowledge; any exception on the way propagates (`Except.error`) after
skipping every later step, so a failed attempt performs no acknowledgment
call. -/
def process_single_batch {ε δ : Type} (env : Env ε δ) :
    Except Unit Metrics × List (WAction ε δ) :=
  if env.rawMessages.isEmpty then
    (.ok ⟨0, 0, 0, none⟩, [.readCall])
  else
    let ids := env.rawMessages.map RawMsg.id
    match env.processResult with
    | .error _ => (.error (), [.readCall, .processCall])
    | .ok (events, detections) =>
      let er := runEventsInsert env events
      match er.1 with
      | .error _ => (.error (), .readCall :: .processCall :: er.2)
      | .ok events_inserted =>
        let dr := runDetectionsInsert env detections
        match dr.1 with
        | .error _ => (.error (), .readCall :: .processCall :: er.2 ++ dr.2)
        | .ok detections_inserted =>
          match env.ackResult ids with
          | .error _ =>
            (.error (), .readCall :: .processCall :: er.2 ++ dr.2 ++ [.ackCall ids])
          | .ok ack_count =>
            (.ok ⟨events_inserted, detections_inserted,
                  env.rawMessages.length, some ack_count⟩,
             .readCall :: .processCall :: er.2 ++ dr.2 ++ [.ackCall ids])

/-- The body of `_process_with_retry`'s `for attempt in range(1,
max_retries + 1)` loop: `remaining` counts the attempts the range still
holds, `attempt` is the current attempt number; a failed attempt is
followed by a `2 ^ attempt`-second backoff sleep exactly when further
attempts remain (`attempt < max_retries`). -/
def retryAux {ε δ : Type} (env : Env ε δ) (max_retries : Nat) :
    Nat → Nat → Option Metrics × List (WAction ε δ)
  | _, 0 => (none, [])
  | attempt, remaining + 1 =>
    match process_single_batch env with
    | (.ok m, tr) => (some m, tr)
    | (.error _, tr) =>
      if attempt < max_retries then
        let rest := retryAux env max_retries (attempt + 1) remaining
        (rest.1, tr ++ .backoff (2 ^ attempt) :: rest.2)
      else
        (none, tr)

/-- Embeds `WriterService._process_with_retry`: up to `max_retries`
attempts starting at attempt 1; exhausting them returns None (a failure
result, not a raise). -/
def process_with_retry {ε δ : Type} (env : Env ε δ) (max_retries : Nat) :
    Option Metrics × List (WAction ε δ) :=
  retryAux env max_retries 1 max_retries

/-- Recognizes an acknowledgment call in a trace. -/
def isAck {ε δ : Type} : WAction ε δ → Bool
  | .ackCall _ => true
  | _ => false

/-- Recognizes an event bulk-insert call in a trace. -/
def isInsertEvents {ε δ : Type} : WAction ε δ → Bool
  | .insertEvents _ => true
  | _ => false

/-- Extracts the duration of a backoff sleep from a trace entry. -/
def backoffOf {ε δ : Type} : WAction ε δ → Option Nat
  | .backoff s => some s
  | _ => none

/-- The bulk-insert step of one attempt raising: the batch is non-empty,
the processing step produced events/detections, and the event insert (on a
non-empty event list) or the detection insert (on a non-empty detection
list) raises. -/
def insertStepRaises {ε δ : Type} (env : Env ε δ) : Prop :=
  env.rawMessages.isEmpty = false ∧
  ∃ evs dts, env.processResult = .ok (evs, dts) ∧
    ((evs.isEmpty = false ∧ env.eventsInsert evs = .error ()) ∨
     (dts.isEmpty = false ∧ env.detectionsInsert dts = .error ()))

/-!  Concrete fixtures shared by witnesses and counterexamples. -/

/-- A partial model of the runtime parsers that agrees with the real
`datetime.fromisoformat` on the two timestamp literals the fixtures use
(their values are the POSIX tick counts of those instants); every other
input is outside the modelled domain. -/
def testPrims : PyPrims :=
  ⟨fun s =>
      if s = "2024-01-01T00:00:00" then some 1704067200
      else if s = "2999-01-01T00:00:00" then some 32472144000
      else none,
   fun _ => none,
   fun _ => none⟩

/-- A stream message whose event date lies far in the future
(2999-01-01) and whose camera id is the string "7". -/
def msgFuture : PyVal :=
  .pydict [("id", .pystr "1-1"),
           ("data", .pydict [("cameraID", .pystr "7"),
                             ("eventDate", .pystr "2999-01-01T00:00:00")])]

/-- A stream message whose camera id coerces to the negative integer -5,
with a valid past event date. -/
def msgNegCam : PyVal :=
  .pydict [("id", .pystr "1-2"),
           ("data", .pydict [("cameraID", .pystr "-5"),
                             ("eventDate", .pystr "2024-01-01T00:00:00")])]

/-- A stream message carrying neither a camera-id synonym nor any parsable
value for it. -/
def msgNoCam : PyVal :=
  .pydict [("id", .pystr "1-3"),
           ("data", .pydict [("eventDate", .pystr "2024-01-01T00:00:00")])]

/-- A well-formed stream message with one complete detection. -/
def msgGood : PyVal :=
  .pydict [("id", .pystr "1-4"),
           ("data", .pydict [("cameraID", .pystr "7"),
                             ("eventDate", .pystr "2024-01-01T00:00:00"),
                             ("detectedObjects", .pylist [.pydict
                               [("className", .pyint 2),
                                ("confidence", .pyint 91),
                                ("photoUrl", .pystr "a.jpg"),
                                ("coordinateX", .pyint 10),
                                ("coordinateY", .pyint 20),
                                ("regionID", .pylist [.pyint 1])]])])]

/-- The data field map of a parametric stream message carrying a camera
id, an event date and a detections payload. -/
def mkMsgData (camv etv dets : PyVal) : PyVal :=
  .pydict [("cameraID", camv), ("eventDate", etv), ("detectedObjects", dets)]

/-- A parametric stream message around `mkMsgData`. -/
def mkMsg (camv etv dets : PyVal) : PyVal :=
  .pydict [("id", .pystr "m-1"), ("data", mkMsgData camv etv dets)]

/-- A raw detection entry whose confidence coerces to 150, outside
[0,100]. -/
def detOverConf : PyVal :=
  .pydict [("className", .pyint 2),
           ("confidence", .pyint 150),
           ("photoUrl", .pystr "b.jpg"),
           ("coordinateX", .pyint 11),
           ("coordinateY", .pyint 21)]

/-- A complete raw detection entry with in-range confidence. -/
def detGood : PyVal :=
  .pydict [("className", .pyint 3),
           ("confidence", .pyint 50),
           ("photoUrl", .pystr "c.jpg"),
           ("coordinateX", .pyint 12),
           ("coordinateY", .pyint 22)]

example : BatchProcessorM.process_batch testPrims [msgFuture] =
    [⟨7, 32472144000, ⟨[], none, none, none⟩⟩] := by decide

example : BatchProcessorM.process_batch testPrims [msgNegCam] =
    [⟨-5, 1704067200, ⟨[], none, none, none⟩⟩] := by decide

example : BatchProcessorM.process_batch testPrims [msgNoCam] = [] := by decide

example : BatchProcessorM.process_batch testPrims [msgGood] =
    [⟨7, 1704067200,
      ⟨[⟨some (some 2), some 91, some "a.jpg", some (some 10), some (some 20),
         some [1]⟩], none, none, none⟩⟩] := by decide

example : BatchProcessorM.build_detection_object testPrims detOverConf = none := by
  decide

example : (BatchProcessorM.build_detection_object testPrims detGood).isSome = true := by
  decide

/-!  Claim theorems. -/

/-- C7: for the empty list of events, each Bulk Loader's bulkInsert
returns 0 immediately, performs no store operation, and raises no error —
for every serializer and every connection behaviour. -/
theorem bulk_insert_empty_returns_zero_no_store_op
    (dumps : BatchProcessorM.EventData → String)
    (copyFn1 : List (Int × Int × String) → Except Unit String)
    (copyFn2 : List (Int × Int × Option Int × Bool × Int × Option Int × Option Int) →
      Except Unit Int)
    (copyFn3 : List SrcCameraDetectionRaw → Except Unit Int) :
    CameraEventsRawRepository.bulk_insert dumps copyFn1 [] = (.ok 0, []) ∧
    EventRepository.bulk_insert copyFn2 [] = (.ok 0, []) ∧
    DetectionRepository.bulk_insert copyFn3 [] = (.ok 0, []) :=
  ⟨rfl, rfl, rfl⟩

/-- C8: the Batch Transformer is a pure function of its input batch: two
runs on the same raw messages — on any two processor instances, which
carry no state — yield element-by-element equal ValidatedEvent lists. -/
theorem process_batch_pure_idempotent (b b' : BatchProcessor) (P : PyPrims)
    (raw_messages : List PyVal) :
    b.run P raw_messages = b'.run P raw_messages ∧
    ∀ i, (b.run P raw_messages).get? i = (b'.run P raw_messages).get? i := by
  cases b
  cases b'
  exact ⟨rfl, fun _ => rfl⟩

/-- C9 counterexample: a read on a never-initialized consumer fails with
the NotInitialized error kind, which is not the BrokerUnavailable kind the
claim names; the local pending set is left unchanged. -/
theorem uninitialized_read_error_kind_not_broker :
    (RedisConsumer.read_stream ⟨false, ["0-1"]⟩
        (.ok [("events", [("1-1", [])])])).1 =
      .error ErrorKind.notInitialized ∧
    (RedisConsumer.read_stream ⟨false, ["0-1"]⟩
        (.ok [("events", [("1-1", [])])])).2 = ⟨false, ["0-1"]⟩ ∧
    ErrorKind.notInitialized ≠ ErrorKind.brokerUnavailable :=
  ⟨rfl, rfl, by decide⟩

/-- C9 amended: every read made before initialize has succeeded fails with
the NotInitialized error kind, reads nothing, and leaves the local pending
set unchanged, whatever the broker would have replied. -/
theorem uninitialized_read_not_initialized (c : RedisConsumer) (reply : ReadReply)
    (h : c.clientReady = false) :
    c.read_stream reply = (.error .notInitialized, c) := by
  simp [RedisConsumer.read_stream, h]

/-- Witness for the amended C9 theorem at a concrete consumer and reply. -/
theorem uninitialized_read_not_initialized_witness :
    RedisConsumer.read_stream ⟨false, ["0-1"]⟩ (.ok [("events", [("1-1", [])])]) =
      (.error .notInitialized, ⟨false, ["0-1"]⟩) :=
  uninitialized_read_not_initialized ⟨false, ["0-1"]⟩
    (.ok [("events", [("1-1", [])])]) rfl

/-- C10: on an initialized consumer, acknowledging the empty id list
returns 0 with the state untouched whatever the broker behaviour would be
(the broker is never consulted), and acknowledging a non-empty id list
removes exactly the given ids from the local pending set and preserves
every other pending id, whatever count the broker reports. -/
theorem acknowledge_empty_noop_nonempty_removes_exactly (c : RedisConsumer)
    (reply : Except Unit Nat) (n : Nat) (ids : List String) (x : String)
    (hinit : c.clientReady = true) :
    c.acknowledge reply [] = (.ok 0, c) ∧
    (ids.isEmpty = false →
      (x ∈ (c.acknowledge (.ok n) ids).2.pending_message_ids ↔
        x ∈ c.pending_message_ids ∧ x ∉ ids)) := by
  constructor
  · simp [RedisConsumer.acknowledge, hinit]
  · intro hne
    simp [RedisConsumer.acknowledge, hinit, hne, List.mem_filter]

/-- Witness for C10 at a concrete consumer, id list and broker replies
(including a broker that would fail, for the empty-list no-op part). -/
theorem acknowledge_empty_noop_nonempty_removes_exactly_witness :
    RedisConsumer.acknowledge ⟨true, ["a", "b", "c"]⟩ (.error ()) [] =
      (.ok 0, ⟨true, ["a", "b", "c"]⟩) ∧
    ("a" ∈ (RedisConsumer.acknowledge ⟨true, ["a", "b", "c"]⟩ (.ok 5)
        ["b"]).2.pending_message_ids ↔
      "a" ∈ (⟨true, ["a", "b", "c"]⟩ : RedisConsumer).pending_message_ids ∧
        "a" ∉ ["b"]) :=
  ⟨(acknowledge_empty_noop_nonempty_removes_exactly ⟨true, ["a", "b", "c"]⟩
      (.error ()) 5 ["b"] "a" rfl).1,
   (acknowledge_empty_noop_nonempty_removes_exactly ⟨true, ["a", "b", "c"]⟩
      (.error ()) 5 ["b"] "a" rfl).2 rfl⟩

/-- C3 counterexample: at validation wall-clock 1760227200 (2025-10-12),
the record `msgFuture` carries an event date parsing to 32472144000
(2999-01-01), strictly in the future — yet the Batch Transformer emits a
ValidatedEvent for it instead of dropping it: the transformer performs no
wall-clock comparison. -/
theorem future_timestamp_event_still_emitted :
    (1760227200 : Int) < 32472144000 ∧
    (BatchProcessorM.process_batch testPrims [msgFuture]).map
      BatchProcessorM.CameraEventRaw.event_time = [32472144000] := by
  decide

/-- C6 counterexample: the record `msgNegCam`, whose camera id coerces to
-5, produces a ValidatedEvent with the negative camera_id -5, so the
emitted camera_id is not always strictly positive. -/
theorem negative_camera_id_event_emitted :
    (BatchProcessorM.process_batch testPrims [msgNegCam]).map
      BatchProcessorM.CameraEventRaw.camera_id = [-5] ∧
    ¬ (∀ ev ∈ BatchProcessorM.process_batch testPrims [msgNegCam],
        0 < ev.camera_id) := by
  decide

/-- The `not camera_id` guard drops only camera id 0 (and records whose
camera id does not parse at all): an emitted event always carries the
parsed, necessarily nonzero, camera id. -/
theorem process_message_camera_id_ne_zero (P : PyPrims) (m : PyVal)
    (ev : BatchProcessorM.CameraEventRaw)
    (h : BatchProcessorM.process_message P m = some ev) : ev.camera_id ≠ 0 := by
  simp only [BatchProcessorM.process_message] at h
  split at h
  · split at h
    · split at h
      · split at h
        · exact absurd h (by simp)
        · rename_i cid _ _ _ hcid
          injection h with h
          subst h
          exact hcid
      · exact absurd h (by simp)
    · exact absurd h (by simp)
  · exact absurd h (by simp)

/-- C6 amended: every ValidatedEvent the Batch Transformer emits carries a
nonzero camera_id — records whose camera id coerces to 0 or to nothing
produce no event, but negative camera ids pass through unrejected. -/
theorem camera_id_nonzero (P : PyPrims) (raw_messages : List PyVal)
    (ev : BatchProcessorM.CameraEventRaw)
    (h : ev ∈ BatchProcessorM.process_batch P raw_messages) : ev.camera_id ≠ 0 := by
  obtain ⟨m, _, hm⟩ := List.mem_filterMap.mp h
  exact process_message_camera_id_ne_zero P m ev hm

/-- Witness for the amended C6 theorem at a concrete batch. -/
theorem camera_id_nonzero_witness :
    (⟨-5, 1704067200, ⟨[], none, none, none⟩⟩ :
      BatchProcessorM.CameraEventRaw).camera_id ≠ 0 :=
  camera_id_nonzero testPrims [msgNegCam] _ (by decide)

/-- C4: a record with no parsable camera id or no parsable event time
(both extractions compose the synonym lookups with the coercions of the
source) yields no ValidatedEvent and does not abort the batch: the other
records produce exactly what they would produce alone. -/
theorem missing_fields_record_skipped_batch_continues (P : PyPrims)
    (msg : PyVal) (pre post : List PyVal)
    (h : BatchProcessorM.extract_camera_id (BatchProcessorM.msgData msg) = none ∨
      BatchProcessorM.extract_event_time P (BatchProcessorM.msgData msg) = none) :
    BatchProcessorM.process_message P msg = none ∧
    BatchProcessorM.process_batch P (pre ++ msg :: post) =
      BatchProcessorM.process_batch P pre ++ BatchProcessorM.process_batch P post := by
  have hmsg : BatchProcessorM.process_message P msg = none := by
    simp only [BatchProcessorM.process_message]
    split
    · split
      · rcases h with h | h
        · rw [h]
        · rw [h]
          cases BatchProcessorM.extract_camera_id (BatchProcessorM.msgData msg) <;> rfl
      · rfl
    · rfl
  refine ⟨hmsg, ?_⟩
  simp [BatchProcessorM.process_batch, List.filterMap_append, List.filterMap_cons, hmsg]

/-- Camera-id extraction on a `mkMsgData` record reduces to the given
camera value when that value is truthy. -/
theorem extract_camera_id_mkMsgData (camv etv dets : PyVal) (cid : Int)
    (h5 : pyTruthy camv = true) (h6 : BatchProcessorM.safe_int camv = some cid) :
    BatchProcessorM.extract_camera_id (mkMsgData camv etv dets) = some cid := by
  have e1 : BatchProcessorM.extract_camera_id (mkMsgData camv etv dets) =
      BatchProcessorM.safe_int (if pyTruthy camv = true then camv else .pynone) := rfl
  rw [e1, h5]
  simpa using h6

/-- Event-time extraction on a `mkMsgData` record reduces to the parse of
the given event-date value when that value is truthy. -/
theorem extract_event_time_mkMsgData (P : PyPrims) (camv etv dets : PyVal) (t : Int)
    (h8 : pyTruthy etv = true) (h9 : BatchProcessorM.parse_datetime P etv = some t) :
    BatchProcessorM.extract_event_time P (mkMsgData camv etv dets) = some t := by
  have e1 : BatchProcessorM.extract_event_time P (mkMsgData camv etv dets) =
      BatchProcessorM.parse_datetime P (if pyTruthy etv = true then etv else .pynone) := rfl
  rw [e1, h8]
  simpa using h9

/-- Processing a `mkMsg` record whose camera id coerces to a nonzero
integer and whose event date parses yields exactly one event built from
the parsed fields and the collected detections; no other condition is
consulted. -/
theorem process_message_mkMsg (P : PyPrims) (camv etv dets : PyVal) (cid t : Int)
    (h5 : pyTruthy camv = true) (h6 : BatchProcessorM.safe_int camv = some cid)
    (h7 : cid ≠ 0) (h8 : pyTruthy etv = true)
    (h9 : BatchProcessorM.parse_datetime P etv = some t) :
    BatchProcessorM.process_message P (mkMsg camv etv dets) =
      some ⟨cid, t,
        ⟨BatchProcessorM.collect_detections P (mkMsgData camv etv dets),
         none, none, none⟩⟩ := by
  have hred : BatchProcessorM.process_message P (mkMsg camv etv dets) =
      (match BatchProcessorM.extract_camera_id (mkMsgData camv etv dets),
             BatchProcessorM.extract_event_time P (mkMsgData camv etv dets) with
       | some cid', some t' =>
         if cid' = 0 then none
         else
           some ⟨cid', t',
             ⟨BatchProcessorM.collect_detections P (mkMsgData camv etv dets),
              none, none, none⟩⟩
       | _, _ => none) := rfl
  rw [hred, extract_camera_id_mkMsgData camv etv dets cid h5 h6,
    extract_event_time_mkMsgData P camv etv dets t h8 h9]
  simp [h7]

/-- C3 amended: a record whose event timestamp parses to a time strictly
after the wall-clock is NOT dropped — the Batch Transformer performs no
wall-clock comparison, so the record produces a ValidatedEvent carrying
the future timestamp exactly as any parsable record would, and the rest of
the batch is processed normally around it. -/
theorem future_timestamp_no_drop (P : PyPrims) (now : Int) (camv etv dets : PyVal)
    (cid t : Int) (pre post : List PyVal)
    (h5 : pyTruthy camv = true) (h6 : BatchProcessorM.safe_int camv = some cid)
    (h7 : cid ≠ 0) (h8 : pyTruthy etv = true)
    (h9 : BatchProcessorM.parse_datetime P etv = some t)
    (_hfut : now < t) :
    BatchProcessorM.process_message P (mkMsg camv etv dets) =
      some ⟨cid, t,
        ⟨BatchProcessorM.collect_detections P (mkMsgData camv etv dets),
         none, none, none⟩⟩ ∧
    BatchProcessorM.process_batch P (pre ++ mkMsg camv etv dets :: post) =
      BatchProcessorM.process_batch P pre ++
        ⟨cid, t,
          ⟨BatchProcessorM.collect_detections P (mkMsgData camv etv dets),
           none, none, none⟩⟩ ::
        BatchProcessorM.process_batch P post := by
  have h := process_message_mkMsg P camv etv dets cid t h5 h6 h7 h8 h9
  refine ⟨h, ?_⟩
  simp [BatchProcessorM.process_batch, List.filterMap_append, List.filterMap_cons, h]

/-- Witness for the amended C3 theorem: the future-dated record between
two other records, at the concrete validation instant 1760227200. -/
theorem future_timestamp_no_drop_witness :
    BatchProcessorM.process_message testPrims
        (mkMsg (.pystr "7") (.pystr "2999-01-01T00:00:00") .pynone) =
      some ⟨7, 32472144000,
        ⟨BatchProcessorM.collect_detections testPrims
           (mkMsgData (.pystr "7") (.pystr "2999-01-01T00:00:00") .pynone),
         none, none, none⟩⟩ ∧
    BatchProcessorM.process_batch testPrims
        ([msgGood] ++ mkMsg (.pystr "7") (.pystr "2999-01-01T00:00:00") .pynone ::
          [msgNoCam]) =
      BatchProcessorM.process_batch testPrims [msgGood] ++
        ⟨7, 32472144000,
          ⟨BatchProcessorM.collect_detections testPrims
             (mkMsgData (.pystr "7") (.pystr "2999-01-01T00:00:00") .pynone),
           none, none, none⟩⟩ ::
        BatchProcessorM.process_batch testPrims [msgNoCam] :=
  future_timestamp_no_drop testPrims 1760227200 (.pystr "7")
    (.pystr "2999-01-01T00:00:00") .pynone 7 32472144000 [msgGood] [msgNoCam]
    (by decide) (by decide) (by decide) (by decide) (by decide) (by decide)

/-- Detection collection over an already-decoded detections list is the
per-entry builder filtered over it. -/
theorem collect_detections_mkMsgData_list (P : PyPrims) (camv etv : PyVal)
    (xs : List PyVal) :
    BatchProcessorM.collect_detections P (mkMsgData camv etv (.pylist xs)) =
      xs.filterMap (BatchProcessorM.build_detection_object P) := rfl

/-- C5: a raw detection entry whose confidence coerces to an integer
outside [0,100] never becomes a Detection (the confidence key is left
unset, failing the required-fields check), and its exclusion removes
neither the sibling detections of the same record nor the parent event:
the record still produces its event, carrying exactly the detections built
from the siblings. -/
theorem out_of_range_confidence_detection_excluded (P : PyPrims) (d v : PyVal)
    (c : Int) (camv etv : PyVal) (cid t : Int) (pre post : List PyVal)
    (hconf : BatchProcessorM.lookup_first d ["confidence"] = some v)
    (hcoerce : BatchProcessorM.safe_int v = some c)
    (hrange : c < 0 ∨ 100 < c)
    (h5 : pyTruthy camv = true) (h6 : BatchProcessorM.safe_int camv = some cid)
    (h7 : cid ≠ 0) (h8 : pyTruthy etv = true)
    (h9 : BatchProcessorM.parse_datetime P etv = some t) :
    BatchProcessorM.build_detection_object P d = none ∧
    (pre ++ d :: post).filterMap (BatchProcessorM.build_detection_object P) =
      pre.filterMap (BatchProcessorM.build_detection_object P) ++
      post.filterMap (BatchProcessorM.build_detection_object P) ∧
    BatchProcessorM.process_message P (mkMsg camv etv (.pylist (pre ++ d :: post))) =
      some ⟨cid, t,
        ⟨pre.filterMap (BatchProcessorM.build_detection_object P) ++
         post.filterMap (BatchProcessorM.build_detection_object P),
         none, none, none⟩⟩ := by
  have hdict : ∃ kvs, d = .pydict kvs := by
    cases d
    case pydict kvs => exact ⟨kvs, rfl⟩
    all_goals simp [BatchProcessorM.lookup_first, dictGet] at hconf
  obtain ⟨kvs, rfl⟩ := hdict
  have hnone : BatchProcessorM.build_detection_object P (.pydict kvs) = none := by
    have hno : ¬(0 ≤ c ∧ c ≤ 100) := by omega
    simp only [BatchProcessorM.build_detection_object, hconf, hcoerce, hno, if_false]
    split <;> simp
  have hsplit : (pre ++ .pydict kvs :: post).filterMap
      (BatchProcessorM.build_detection_object P) =
      pre.filterMap (BatchProcessorM.build_detection_object P) ++
      post.filterMap (BatchProcessorM.build_detection_object P) := by
    simp [List.filterMap_append, List.filterMap_cons, hnone]
  refine ⟨hnone, hsplit, ?_⟩
  rw [process_message_mkMsg P camv etv (.pylist (pre ++ .pydict kvs :: post))
    cid t h5 h6 h7 h8 h9]
  rw [collect_detections_mkMsgData_list, hsplit]

/-- Witness for C5: the over-confident entry `detOverConf` between two
copies of the well-formed entry `detGood`, inside a record with camera id
"7" and a parsable event date. -/
theorem out_of_range_confidence_detection_excluded_witness :
    BatchProcessorM.build_detection_object testPrims detOverConf = none ∧
    ([detGood] ++ detOverConf :: [detGood]).filterMap
      (BatchProcessorM.build_detection_object testPrims) =
      [detGood].filterMap (BatchProcessorM.build_detection_object testPrims) ++
      [detGood].filterMap (BatchProcessorM.build_detection_object testPrims) ∧
    BatchProcessorM.process_message testPrims
        (mkMsg (.pystr "7") (.pystr "2024-01-01T00:00:00")
          (.pylist ([detGood] ++ detOverConf :: [detGood]))) =
      some ⟨7, 1704067200,
        ⟨[detGood].filterMap (BatchProcessorM.build_detection_object testPrims) ++
         [detGood].filterMap (BatchProcessorM.build_detection_object testPrims),
         none, none, none⟩⟩ :=
  out_of_range_confidence_detection_excluded testPrims detOverConf (.pyint 150)
    150 (.pystr "7") (.pystr "2024-01-01T00:00:00") 7 1704067200 [detGood]
    [detGood] rfl (by decide) (by decide) (by decide) (by decide)
    (by decide) (by decide) (by decide)

/-- Witness for C4: a record with no camera-id synonym at all, between two
well-formed records. -/
theorem missing_fields_record_skipped_batch_continues_witness :
    BatchProcessorM.process_message testPrims msgNoCam = none ∧
    BatchProcessorM.process_batch testPrims ([msgGood] ++ msgNoCam :: [msgFuture]) =
      BatchProcessorM.process_batch testPrims [msgGood] ++
        BatchProcessorM.process_batch testPrims [msgFuture] :=
  missing_fields_record_skipped_batch_continues testPrims msgNoCam [msgGood]
    [msgFuture] (Or.inl (by decide))

/-- C1: on every batch and under every store behaviour, an attempt whose
bulk-insert step raises performs zero acknowledgment calls and propagates
the failure — acknowledge runs only after the bulk inserts have completed
successfully. -/
theorem ack_only_after_successful_insert {ε δ : Type} (env : Env ε δ)
    (h : insertStepRaises env) :
    (process_single_batch env).2.countP isAck = 0 ∧
    (process_single_batch env).1 = .error () := by
  obtain ⟨hraw, evs, dts, hproc, hfail⟩ := h
  rcases hfail with ⟨hevne, herr⟩ | ⟨hdtne, herr⟩
  · simp [process_single_batch, hraw, hproc, runEventsInsert, hevne, herr, isAck]
  · by_cases hev : evs.isEmpty
    · simp [process_single_batch, hraw, hproc, runEventsInsert, hev,
        runDetectionsInsert, hdtne, herr, isAck]
    · cases hres : env.eventsInsert evs with
      | error e =>
        simp [process_single_batch, hraw, hproc, runEventsInsert, hev, hres, isAck]
      | ok n =>
        simp [process_single_batch, hraw, hproc, runEventsInsert, hev, hres,
          runDetectionsInsert, hdtne, herr, isAck]

/-- A concrete orchestrator environment with one raw message, one
processed event, and a store whose event bulk insert fails on every
call. -/
def envFailStore : Env Nat Nat :=
  ⟨[⟨"1-1", msgGood⟩], .ok ([1], []), fun _ => .error (), fun _ => .ok 0,
   fun _ => .ok 1⟩

/-- Witness for C1 at the always-failing store environment. -/
theorem ack_only_after_successful_insert_witness :
    insertStepRaises envFailStore ∧
    ((process_single_batch envFailStore).2.countP isAck = 0 ∧
      (process_single_batch envFailStore).1 = .error ()) := by
  have h : insertStepRaises envFailStore :=
    ⟨rfl, [1], [], rfl, Or.inl ⟨rfl, rfl⟩⟩
  exact ⟨h, ack_only_after_successful_insert envFailStore h⟩

/-- C2 counterexample: with maxRetries 3 and a store whose event bulk
insert fails on every call, the round performs its 3 load attempts but the
backoff delays between them are 2 and 4 seconds only — not the 2, 4, 8
seconds the claim states (no sleep follows the final attempt). -/
theorem retry_backoff_not_2_4_8 :
    (process_with_retry envFailStore 3).2.countP isInsertEvents = 3 ∧
    ¬ ((process_with_retry envFailStore 3).2.filterMap backoffOf = [2, 4, 8]) := by
  decide

/-- C2 amended: with maxRetries 3 and a store whose event bulk insert
fails on every call, one batch-processing round performs exactly 3 load
attempts, with backoff delays of 2 then 4 seconds between them
(2 ^ attempt seconds after each failed attempt except the last), zero
acknowledgment calls are made, and the round returns the failure result
None instead of raising. -/
theorem retry_three_attempts_backoff_2_4 {ε δ : Type} (env : Env ε δ)
    (evs : List ε) (dts : List δ)
    (hraw : env.rawMessages.isEmpty = false)
    (hproc : env.processResult = .ok (evs, dts))
    (hevne : evs.isEmpty = false)
    (herr : env.eventsInsert evs = .error ()) :
    (process_with_retry env 3).1 = none ∧
    (process_with_retry env 3).2.countP isInsertEvents = 3 ∧
    (process_with_retry env 3).2.filterMap backoffOf = [2, 4] ∧
    (process_with_retry env 3).2.countP isAck = 0 := by
  have hone : process_single_batch env =
      (.error (), [.readCall, .processCall, .insertEvents evs]) := by
    simp [process_single_batch, hraw, hproc, runEventsInsert, hevne, herr]
  have htr : process_with_retry env 3 =
      (none, [.readCall, .processCall, .insertEvents evs, .backoff 2,
              .readCall, .processCall, .insertEvents evs, .backoff 4,
              .readCall, .processCall, .insertEvents evs]) := by
    simp [process_with_retry, retryAux, hone]
  rw [htr]
  refine ⟨rfl, ?_, ?_, ?_⟩ <;>
    simp [List.countP_cons, List.filterMap, isInsertEvents, isAck, backoffOf]

/-- Witness for the amended C2 theorem at the always-failing store
environment. -/
theorem retry_three_attempts_backoff_2_4_witness :
    (process_with_retry envFailStore 3).1 = none ∧
    (process_with_retry envFailStore 3).2.countP isInsertEvents = 3 ∧
    (process_with_retry envFailStore 3).2.filterMap backoffOf = [2, 4] ∧
    (process_with_retry envFailStore 3).2.countP isAck = 0 :=
  retry_three_attempts_backoff_2_4 envFailStore [1] [] rfl rfl rfl rfl
